import Mathlib

set_option linter.unusedVariables false

/-!
Shallow embedding of the rule-based tutoring core from `main.py`:
the safety filter (`is_harmful`), the grade-tier tone selector
(`level_tone`), the per-subject content classifiers (`explain_math`,
`explain_science`, `explain_english`, `explain_social`,
`explain_languages`, `explain_computer`), the subject dispatch
(`generate_content`) and the `/api/assist` handler (`assist`).

Strings are Lean `String`s; Python `str.lower()` is modelled by the
ASCII `Char.toLower` map, `str.strip()` by trimming ASCII whitespace,
and `needle in haystack` by an executable substring test.  Python
dictionaries holding the content bundles are modelled as functions
from a section-kind enumeration to `Option (List String)` so that the
`key in content` tests of the handler stay meaningful.
-/

/-- ASCII model of Python `str.lower()`. -/
def lowerStr (s : String) : String := String.mk (s.data.map Char.toLower)

/-- Drops leading and trailing whitespace characters. -/
def stripChars (l : List Char) : List Char :=
  ((l.dropWhile Char.isWhitespace).reverse.dropWhile Char.isWhitespace).reverse

/-- ASCII model of Python `str.strip()`. -/
def strip (s : String) : String := String.mk (stripChars s.data)

/-- Model of Python `needle in hay` substring membership. -/
def strContains (hay needle : String) : Bool :=
  (List.range (hay.data.length + 1)).any (fun i => needle.data.isPrefixOf (hay.data.drop i))

/-- The section kinds admitted by the `needs` field and the content bundles. -/
inductive SectionKey where
  | explanation
  | steps
  | examples
  | practice
  | summary
  | tips
  | fun_facts
  | related
  | visuals
  | revision
  | quiz
deriving DecidableEq, Repr

/-- A content bundle: the Python `Dict[str, List[str]]` returned by the
classifiers, as a partial map on section kinds. -/
def Bundle : Type := SectionKey → Option (List String)

/-- Builds the ten-key dictionary every classifier returns: all section
keys except `explanation` are present. -/
def bundle10 (steps examples practice tips summary fun_facts related visuals revision quiz : List String) : Bundle :=
  fun k => match k with
  | SectionKey.explanation => none
  | SectionKey.steps => some steps
  | SectionKey.examples => some examples
  | SectionKey.practice => some practice
  | SectionKey.tips => some tips
  | SectionKey.summary => some summary
  | SectionKey.fun_facts => some fun_facts
  | SectionKey.related => some related
  | SectionKey.visuals => some visuals
  | SectionKey.revision => some revision
  | SectionKey.quiz => some quiz

/-- `HARMFUL_KEYWORDS` from the source. -/
def HARMFUL_KEYWORDS : List String :=
  ["self-harm", "suicide", "violence", "bomb", "weapon", "drugs", "extremism"]

/-- `is_harmful`: lower-case the text and look for any blocked term as a substring. -/
def is_harmful (text : String) : Bool :=
  HARMFUL_KEYWORDS.any (fun k => strContains (lowerStr text) k)

/-- The tone dictionary produced by `level_tone`. -/
structure ToneProfile where
  voice : String
  sent_len : Nat
  bullets : Bool
deriving DecidableEq, Repr

/-- `level_tone`: the four-tier age-adjusted tone step function. -/
def level_tone (level : Nat) : ToneProfile :=
  if level ≤ 2 then ⟨"very simple, friendly", 8, true⟩
  else if level ≤ 5 then ⟨"simple and clear", 12, true⟩
  else if level ≤ 8 then ⟨"clear with a bit more detail", 16, true⟩
  else ⟨"concise, structured, and exam-oriented", 18, true⟩

/-- The addition keyword list of `explain_math`. -/
def ADD_KEYS : List String := ["add", "sum", "+", "plus"]

/-- The subtraction keyword list of `explain_math`. -/
def SUB_KEYS : List String := ["subtrac", "-", "minus", "difference"]

/-- The fraction keyword list of `explain_math`. -/
def FRAC_KEYS : List String := ["fraction", "/", "numerator", "denominator"]

/-- The algebra keyword list of `explain_math`. -/
def ALG_KEYS : List String := ["algebra", "solve", "equation", "x=", "find x"]

/-- `any(k in q.lower() for k in ks)` where `q = question.strip()`, as in `explain_math`. -/
def mathHit (ks : List String) (question : String) : Bool :=
  ks.any (fun k => strContains (lowerStr (strip question)) k)

def addSteps : List String :=
  ["Line up the numbers by place value.",
   "Add digits from right to left.",
   "If a sum is 10 or more, carry to the next place.",
   "Write the final answer neatly."]
def addExamples : List String := ["23 + 19 = 42", "305 + 70 = 375"]
def addPractice : List String := ["47 + 28 = ?", "506 + 289 = ?"]
def addTips : List String :=
  ["Check by reversing the addends.",
   "Estimate first to see if your answer is reasonable."]

def subSteps : List String :=
  ["Line up the numbers by place value.",
   "Subtract from right to left.",
   "If the top digit is smaller, borrow from the next left place.",
   "Write the difference."]
def subExamples : List String := ["54 - 27 = 27", "700 - 256 = 444"]
def subPractice : List String := ["63 - 38 = ?", "900 - 457 = ?"]
def subTips : List String := ["Add the answer to the smaller number to check."]

def fracSteps : List String :=
  ["Make denominators the same if you add or subtract.",
   "Multiply across for multiplication.",
   "Flip the second fraction and multiply for division.",
   "Simplify by dividing numerator and denominator by the same number."]
def fracExamples : List String := ["1/2 + 1/3 = 5/6", "3/4 × 2/3 = 1/2"]
def fracPractice : List String := ["2/5 + 1/10 = ?", "5/6 ÷ 2/3 = ?"]
def fracTips : List String := ["Always simplify your final fraction."]

def algSteps : List String :=
  ["Keep the equation balanced: do the same to both sides.",
   "Move constants to one side and variables to the other.",
   "Combine like terms.",
   "Isolate the variable to find its value."]
def algExamples : List String :=
  ["2x + 5 = 13 → 2x = 8 → x = 4", "3(x-2) = 9 → x-2 = 3 → x = 5"]
def algPractice : List String := ["5x - 7 = 18", "4(x + 3) = 28"]
def algTips : List String := ["Check by substituting your value back into the equation."]

def genericSteps : List String :=
  ["Identify what is being asked.",
   "Write down the known information.",
   "Choose a suitable method or formula.",
   "Solve step by step and check your answer."]
def genericExamples : List String :=
  ["Area of rectangle: A = l × w", "Mean = sum of data ÷ number of items"]
def genericPractice : List String :=
  ["Find the perimeter of a 6 cm by 9 cm rectangle.",
   "Calculate the mean of 5, 7, 3, 10."]
def genericTips : List String := ["Underline key numbers and units."]

def mathSummary : List String := ["Solve carefully, show steps, and double-check."]
def mathFunFacts : List String :=
  ["Zero is the only number that is neither positive nor negative."]
def mathRelated : List String := ["Place value", "Word problems", "Estimation"]
def mathVisuals : List String :=
  ["Picture: Number line showing jumps for addition/subtraction.",
   "Diagram: Balance scale to show equation solving."]
def mathRevision : List String :=
  ["Revise place value and basic operations.",
   "Memorize common fraction equivalents (1/2=0.5, 1/4=0.25)."]
def mathQuiz : List String :=
  ["Quick Quiz: 12 + 19 = ?",
   "True/False: To divide fractions, flip the second and multiply."]

/-- `explain_math`: first-match-wins keyword dispatch over the stripped,
lower-cased question. -/
def explain_math (level : Nat) (question : String) : Bundle :=
  if mathHit ADD_KEYS question then
    bundle10 addSteps addExamples addPractice addTips mathSummary mathFunFacts mathRelated mathVisuals mathRevision mathQuiz
  else if mathHit SUB_KEYS question then
    bundle10 subSteps subExamples subPractice subTips mathSummary mathFunFacts mathRelated mathVisuals mathRevision mathQuiz
  else if mathHit FRAC_KEYS question then
    bundle10 fracSteps fracExamples fracPractice fracTips mathSummary mathFunFacts mathRelated mathVisuals mathRevision mathQuiz
  else if mathHit ALG_KEYS question then
    bundle10 algSteps algExamples algPractice algTips mathSummary mathFunFacts mathRelated mathVisuals mathRevision mathQuiz
  else
    bundle10 genericSteps genericExamples genericPractice genericTips mathSummary mathFunFacts mathRelated mathVisuals mathRevision mathQuiz

/-- `any(k in q for k in ks)` where `q = question.lower()` (no strip),
as in the science, english, social and computer classifiers. -/
def lowerHit (ks : List String) (question : String) : Bool :=
  ks.any (fun k => strContains (lowerStr question) k)

def scienceVisuals : List String :=
  ["Diagram: Sun → Leaf → Sugar + Oxygen arrows.",
   "Chart: Variables vs outcomes in an experiment."]
def scienceRevision : List String :=
  ["Recall: solid, liquid, gas changes.",
   "Know the steps of the scientific method."]
def scienceQuiz : List String :=
  ["MCQ: Plants take in (a) oxygen (b) carbon dioxide during photosynthesis.",
   "Fill in the blank: Energy for photosynthesis comes from _____."]

/-- `explain_science`: photosynthesis branch or the generic scientific-method
branch, then the fixed visuals/revision/quiz update. -/
def explain_science (level : Nat) (question : String) : Bundle :=
  if lowerHit ["photosynthesis"] question then
    bundle10
      ["Plants take in sunlight with chlorophyll in leaves.",
       "They use water from roots and carbon dioxide from air.",
       "They make glucose (food) and release oxygen."]
      ["Leaf in sunlight makes more oxygen than in shade."]
      ["Name two things plants need for photosynthesis.", "Why is sunlight important?"]
      ["Remember: Sun + CO2 + Water → Glucose + Oxygen"]
      ["Photosynthesis is how plants make food using sunlight."]
      ["Chloroplasts are the tiny food factories in plant cells."]
      ["Food chains", "Respiration", "Plant cells"]
      scienceVisuals scienceRevision scienceQuiz
  else
    bundle10
      ["Observe, ask a question, make a hypothesis, test, and conclude."]
      ["Testing which paper towel absorbs more water."]
      ["Write a simple hypothesis about melting ice."]
      ["Change only one variable at a time."]
      ["Science uses fair tests to learn about the world."]
      ["Honey never spoils because it has very little water."]
      ["Variables", "Fair test", "Data tables"]
      scienceVisuals scienceRevision scienceQuiz

def englishVisuals : List String :=
  ["Mind map: Topic in center with branches for main idea and details.",
   "Color-coded sentence showing noun/verb/adjective/adverb."]
def englishRevision : List String :=
  ["Revise punctuation basics: . , ? !",
   "Know the difference between there/they\x27re/their."]
def englishQuiz : List String :=
  ["Identify the adjective: The small puppy barked loudly.",
   "Choose a transition to add: First/Then/Finally."]

/-- `explain_english`: parts-of-speech branch or the generic reading branch,
then the fixed visuals/revision/quiz update. -/
def explain_english (level : Nat) (question : String) : Bundle :=
  if lowerHit ["noun", "verb", "adjective", "adverb"] question then
    bundle10
      ["Find the word\x27s job in the sentence."]
      ["Noun: dog; Verb: runs; Adjective: happy; Adverb: quickly."]
      ["Underline the verbs in: The cat quietly slept."]
      ["Adjectives describe nouns; adverbs describe verbs/adjectives."]
      ["Parts of speech tell how words work."]
      ["English borrows words from many languages!"]
      ["Sentence types", "Punctuation"]
      englishVisuals englishRevision englishQuiz
  else
    bundle10
      ["Read closely, find main idea, then details."]
      ["Main idea: what the text is mostly about."]
      ["Write a 2-sentence summary of a short paragraph."]
      ["Use transition words: first, then, finally."]
      ["Clarity and structure make writing strong."]
      ["There are more than a million English words."]
      ["Synonyms", "Paragraphs", "Summaries"]
      englishVisuals englishRevision englishQuiz

def socialVisuals : List String :=
  ["Timeline sketch with dates and short notes.",
   "Map outline highlighting key regions."]
def socialRevision : List String :=
  ["Remember key terms: democracy, constitution, citizen.",
   "Practice reading maps and legends."]
def socialQuiz : List String :=
  ["Short answer: What is one feature of a democracy?",
   "Match: Event → Year (from your chapter)."]

/-- `explain_social`: democracy/government branch or the generic history
branch, then the fixed visuals/revision/quiz update. -/
def explain_social (level : Nat) (question : String) : Bundle :=
  if lowerHit ["democracy", "government"] question then
    bundle10
      ["People choose leaders, leaders make and enforce rules."]
      ["Voting in local elections."]
      ["Name two features of a democracy."]
      ["Remember: rights and responsibilities go together."]
      ["Democracy means rule by the people."]
      ["Ancient Athens had an early form of democracy."]
      ["Constitution", "Citizenship"]
      socialVisuals socialRevision socialQuiz
  else
    bundle10
      ["Identify time, place, people, and causes/effects."]
      ["Cause and effect in historical events."]
      ["Make a timeline of three key events from a chapter."]
      ["Use maps and dates to organize information."]
      ["Social studies connects people, places, and time."]
      ["The Silk Road was a network, not one road."]
      ["Timelines", "Maps", "Civics"]
      socialVisuals socialRevision socialQuiz

/-- `explain_languages`: a single fixed bundle, independent of the question. -/
def explain_languages (level : Nat) (question : String) : Bundle :=
  bundle10
    ["Learn basic greetings, numbers, and simple grammar."]
    ["Hola (Hello) in Spanish; Namaste in Hindi."]
    ["Translate five classroom objects into the target language."]
    ["Practice a little every day and speak out loud."]
    ["Start small and build vocabulary steadily."]
    ["Many languages share common roots called cognates."]
    ["Pronunciation", "Vocabulary", "Grammar"]
    ["Flashcards with picture on one side and word on the other."]
    ["Revise 10 core words daily and one grammar rule."]
    ["Say or write 3 greetings and 3 numbers in the language."]

def computerVisuals : List String :=
  ["Block diagram: Input → CPU → Output, with Storage connected."]
def computerRevision : List String :=
  ["Revise basic parts: CPU, memory, storage, input/output devices."]
def computerQuiz : List String :=
  ["MCQ: CPU stands for _____.", "Name one input and one output device."]

/-- `explain_computer`: algorithm/flowchart branch or the generic IPO branch,
then the fixed visuals/revision/quiz update. -/
def explain_computer (level : Nat) (question : String) : Bundle :=
  if lowerHit ["algorithm", "flowchart"] question then
    bundle10
      ["Define the problem clearly.",
       "List steps in order (algorithm).",
       "Draw a flowchart with start/end, input/output, and process boxes.",
       "Test the steps with a simple example."]
      ["Algorithm: Make tea → Boil water → Add tea → Pour → Add milk/sugar.",
       "Flowchart: Start → Read two numbers → Add → Show sum → End"]
      ["Write an algorithm for brushing teeth.", "Draw a flowchart for adding two numbers."]
      ["Use clear, short steps; one action per step."]
      ["Algorithms are ordered steps; flowcharts show them visually."]
      ["The word \x27algorithm\x27 comes from Al-Khwarizmi, a Persian scholar."]
      ["Pseudocode", "Debugging", "Programming basics"]
      computerVisuals computerRevision computerQuiz
  else
    bundle10
      ["Input → Process → Output → Storage (IPO cycle)."]
      ["Typing (input), Word processor (process), Printed page (output)."]
      ["List 2 input and 2 output devices."]
      ["Keep files organized with clear names and folders."]
      ["Computers take input, process it, and give output; they can store data."]
      ["Early computers filled whole rooms!"]
      ["Hardware", "Software", "Networks"]
      computerVisuals computerRevision computerQuiz

/-- `generate_content`: exact-string subject dispatch, falling through to
`explain_languages` for any other subject value. -/
def generate_content (level : Nat) (subject : String) (question : String) : Bundle :=
  if subject = "Math" then explain_math level question
  else if subject = "Science" then explain_science level question
  else if subject = "English" then explain_english level question
  else if subject = "Social Studies" then explain_social level question
  else if subject = "Computer" then explain_computer level question
  else explain_languages level question

/-- The parsed `/api/assist` request body (`AssistRequest`).  The subject is
kept as a raw string so the dispatch of `generate_content` is modelled as in
the source; `validSubject` below captures the pydantic `Subject` enum. -/
structure AssistRequest where
  student_class : Nat
  subject : String
  question : String
  language : Option String
  needs : Option (List SectionKey)
deriving DecidableEq, Repr

/-- The pydantic `Subject` literal enum. -/
def validSubject (s : String) : Bool :=
  ["Math", "Science", "English", "Social Studies", "Languages", "Computer"].contains s

/-- A response section (`Section`): a title and its list of content lines. -/
structure Sect where
  title : String
  content : List String
deriving DecidableEq, Repr

/-- The `/api/assist` response body (`AssistResponse`). -/
structure AssistResponse where
  level : Nat
  subject : String
  topic : String
  sections : List Sect
  safety_note : Option String
  follow_up : Option String
deriving DecidableEq, Repr

/-- The two advisory lines of the safety-filtered "Notice" section. -/
def noticeLines : List String :=
  ["I can\x27t help with harmful or inappropriate content.",
   "Please ask about your school subjects like Math, Science, English, Social Studies, Languages, or Computer."]

/-- `include = set(req.needs) if req.needs else set(order)`: a Python empty
list is falsy, so an empty `needs` selects the full set (membership in
`set(order)` is always true for the keys the loop visits). -/
def includeOf (needs : Option (List SectionKey)) : SectionKey → Bool :=
  fun k => match needs with
  | some l => if l.isEmpty then true else l.contains k
  | none => true

/-- The three intro lines of the "Explanation" section built in `assist`. -/
def introOf (req : AssistRequest) : List String :=
  ["Let\x27s learn about: " ++ strip req.question ++ ".",
   "I\x27ll keep it " ++ (level_tone req.student_class).voice ++ ".",
   "You\x27ll get steps, examples, practice, visuals, a short quiz, and revision notes."]

/-- The `mapping` dictionary of `assist`, in its insertion order. -/
def sectionMapping : List (SectionKey × String) :=
  [(SectionKey.steps, "Step-by-step"),
   (SectionKey.examples, "Examples"),
   (SectionKey.practice, "Practice Questions"),
   (SectionKey.summary, "Quick Summary"),
   (SectionKey.tips, "Helpful Tips"),
   (SectionKey.fun_facts, "Fun Facts"),
   (SectionKey.related, "Related Topics"),
   (SectionKey.visuals, "Visual Description"),
   (SectionKey.revision, "Revision Notes"),
   (SectionKey.quiz, "Interactive Quiz")]

/-- The section-building loop of `assist`: the "Explanation" intro when
requested, then one section per `mapping` entry whose key is both requested
and present in the bundle. -/
def assembleSections (req : AssistRequest) (content : Bundle) : List Sect :=
  (if includeOf req.needs SectionKey.explanation then [⟨"Explanation", introOf req⟩] else []) ++
    sectionMapping.filterMap (fun p =>
      if includeOf req.needs p.1 then (content p.1).map (fun v => ⟨p.2, v⟩) else none)

/-- The fixed follow-up line of `assist`. -/
def followUpLine : String :=
  "If this isn\x27t quite your topic, tell me your class (1-10) and the exact chapter or exercise number."

/-- The `/api/assist` handler `assist`: safety short-circuit, content
generation, then assembly. -/
def assist (req : AssistRequest) : AssistResponse :=
  if is_harmful req.question then
    ⟨req.student_class, req.subject, "Safety Guard",
     [⟨"Notice", noticeLines⟩],
     some "Content filtered for safety.", none⟩
  else
    ⟨req.student_class, req.subject, strip req.question,
     assembleSections req (generate_content req.student_class req.subject req.question),
     none, some followUpLine⟩

/-! ### Specification-side definitions

`specSectionsOf` renders the section-emission rule as the specification
words it: one pass over the canonical order, emitting "Explanation" (with
the intro lines) when its kind is active, and every other kind exactly when
it is active and present in the content bundle.  `claimActive` is the
active-set rule as the specification words it ("the set of the client's
`needs` when `needs` is provided, else everything"); `amendedActive` is the
corrected rule (an empty provided `needs` list behaves like an absent one). -/

/-- The canonical order after `explanation`. -/
def canonicalOrderTail : List SectionKey :=
  [SectionKey.steps, SectionKey.examples, SectionKey.practice, SectionKey.summary,
   SectionKey.tips, SectionKey.fun_facts, SectionKey.related, SectionKey.visuals,
   SectionKey.revision, SectionKey.quiz]

/-- The full canonical section order. -/
def canonicalOrder : List SectionKey := SectionKey.explanation :: canonicalOrderTail

/-- The fixed kind-to-title table. -/
def titleOf (k : SectionKey) : String :=
  match k with
  | SectionKey.explanation => "Explanation"
  | SectionKey.steps => "Step-by-step"
  | SectionKey.examples => "Examples"
  | SectionKey.practice => "Practice Questions"
  | SectionKey.summary => "Quick Summary"
  | SectionKey.tips => "Helpful Tips"
  | SectionKey.fun_facts => "Fun Facts"
  | SectionKey.related => "Related Topics"
  | SectionKey.visuals => "Visual Description"
  | SectionKey.revision => "Revision Notes"
  | SectionKey.quiz => "Interactive Quiz"

/-- Specification-side section emission: canonical order, explanation when
active, every other kind when active and present in the bundle. -/
def specSectionsOf (active : SectionKey → Bool) (intro : List String) (content : Bundle) : List Sect :=
  canonicalOrder.filterMap (fun k =>
    if active k then
      match k with
      | SectionKey.explanation => some ⟨"Explanation", intro⟩
      | _ => (content k).map (fun v => ⟨titleOf k, v⟩)
    else none)

/-- The active-set rule exactly as the claim words it: the set of the
client's `needs` whenever `needs` is provided. -/
def claimActive (needs : Option (List SectionKey)) : SectionKey → Bool :=
  fun k => match needs with
  | some l => l.contains k
  | none => true

/-- The amended active-set rule: the set of the client's `needs` when it is
provided and non-empty; an empty provided list behaves like an absent one,
selecting every kind. -/
def amendedActive (needs : Option (List SectionKey)) : SectionKey → Bool :=
  fun k => match needs with
  | some l => if l.isEmpty then true else l.contains k
  | none => true

/-! ### Shared helper lemmas -/

theorem filterMap_congr_mem {α β : Type} {l : List α} {f g : α → Option β}
    (h : ∀ a ∈ l, f a = g a) : l.filterMap f = l.filterMap g := by
  induction l with
  | nil => rfl
  | cons a l ih =>
    rw [List.filterMap_cons, List.filterMap_cons, h a (by simp),
      ih (fun x hx => h x (by simp [hx]))]

theorem length_filterMap_of_isSome {α β : Type} {l : List α} {f : α → Option β}
    (h : ∀ a ∈ l, (f a).isSome) : (l.filterMap f).length = l.length := by
  induction l with
  | nil => rfl
  | cons a l ih =>
    rcases Option.isSome_iff_exists.mp (h a (by simp)) with ⟨b, hb⟩
    simp [List.filterMap_cons, hb, ih (fun x hx => h x (by simp [hx]))]

theorem bundle10_isSome {a1 a2 a3 a4 a5 a6 a7 a8 a9 a10 : List String}
    (k : SectionKey) (hk : k ≠ SectionKey.explanation) :
    (bundle10 a1 a2 a3 a4 a5 a6 a7 a8 a9 a10 k).isSome = true := by
  cases k <;> first | exact absurd rfl hk | rfl

theorem explain_math_total (l : Nat) (q : String) (k : SectionKey)
    (hk : k ≠ SectionKey.explanation) : (explain_math l q k).isSome = true := by
  unfold explain_math
  repeat' split
  all_goals exact bundle10_isSome k hk

theorem explain_science_total (l : Nat) (q : String) (k : SectionKey)
    (hk : k ≠ SectionKey.explanation) : (explain_science l q k).isSome = true := by
  unfold explain_science
  repeat' split
  all_goals exact bundle10_isSome k hk

theorem explain_english_total (l : Nat) (q : String) (k : SectionKey)
    (hk : k ≠ SectionKey.explanation) : (explain_english l q k).isSome = true := by
  unfold explain_english
  repeat' split
  all_goals exact bundle10_isSome k hk

theorem explain_social_total (l : Nat) (q : String) (k : SectionKey)
    (hk : k ≠ SectionKey.explanation) : (explain_social l q k).isSome = true := by
  unfold explain_social
  repeat' split
  all_goals exact bundle10_isSome k hk

theorem explain_languages_total (l : Nat) (q : String) (k : SectionKey)
    (hk : k ≠ SectionKey.explanation) : (explain_languages l q k).isSome = true :=
  bundle10_isSome k hk

theorem explain_computer_total (l : Nat) (q : String) (k : SectionKey)
    (hk : k ≠ SectionKey.explanation) : (explain_computer l q k).isSome = true := by
  unfold explain_computer
  repeat' split
  all_goals exact bundle10_isSome k hk

theorem generate_content_total (l : Nat) (s q : String) (k : SectionKey)
    (hk : k ≠ SectionKey.explanation) : (generate_content l s q k).isSome = true := by
  unfold generate_content
  repeat' split
  all_goals first
  | exact explain_math_total l q k hk
  | exact explain_science_total l q k hk
  | exact explain_english_total l q k hk
  | exact explain_social_total l q k hk
  | exact explain_computer_total l q k hk
  | exact explain_languages_total l q k hk

theorem assembleSections_eq_specSections (req : AssistRequest) (content : Bundle) :
    assembleSections req content =
      specSectionsOf (includeOf req.needs) (introOf req) content := by
  unfold assembleSections specSectionsOf canonicalOrder
  rw [List.filterMap_cons]
  have htail : sectionMapping.filterMap (fun p =>
      if includeOf req.needs p.1 then (content p.1).map (fun v => (⟨p.2, v⟩ : Sect)) else none) =
      canonicalOrderTail.filterMap (fun k =>
        if includeOf req.needs k then
          match k with
          | SectionKey.explanation => some ⟨"Explanation", introOf req⟩
          | _ => (content k).map (fun v => ⟨titleOf k, v⟩)
        else none) := by
    have hmap : sectionMapping = canonicalOrderTail.map (fun k => (k, titleOf k)) := rfl
    rw [hmap, List.filterMap_map]
    apply filterMap_congr_mem
    intro k hk
    have hk' : k ≠ SectionKey.explanation := by
      have hall : ∀ a ∈ canonicalOrderTail, a ≠ SectionKey.explanation := by decide
      exact hall k hk
    cases k <;> first | exact absurd rfl hk' | rfl
  cases h : includeOf req.needs SectionKey.explanation <;> simp only [h] <;>
    simp [htail]

/-! ### Claim theorems -/

/-- Concrete requests used by the witnesses. -/
def reqBomb : AssistRequest := ⟨5, "Math", "bomb calculation", some "English", none⟩

def reqMath : AssistRequest := ⟨3, "Math", "How do I add two numbers?", some "English", none⟩

def reqEmptyNeeds : AssistRequest := ⟨3, "Math", "what is a triangle", none, some []⟩

def reqNeedsSome : AssistRequest :=
  ⟨6, "Computer", "draw a flowchart", none, some [SectionKey.steps, SectionKey.quiz]⟩

def reqExamplesOnly : AssistRequest :=
  ⟨4, "Science", "why is the sky blue", none, some [SectionKey.examples]⟩

/-- C1: a request whose question contains a blocked term bypasses content
generation and assembly: the response has topic "Safety Guard", a single
"Notice" section holding exactly the two fixed advisory lines, the safety
note set, no follow-up, and the request's grade and subject echoed back. -/
theorem safety_guard_short_circuit (req : AssistRequest)
    (h : is_harmful req.question = true) :
    assist req = ⟨req.student_class, req.subject, "Safety Guard",
        [⟨"Notice", noticeLines⟩], some "Content filtered for safety.", none⟩ ∧
      noticeLines.length = 2 := by
  refine ⟨?_, rfl⟩
  simp [assist, h]

theorem safety_guard_short_circuit_witness :
    is_harmful reqBomb.question = true ∧
      (assist reqBomb = ⟨5, "Math", "Safety Guard", [⟨"Notice", noticeLines⟩],
          some "Content filtered for safety.", none⟩ ∧
        noticeLines.length = 2) :=
  ⟨by decide, safety_guard_short_circuit reqBomb (by decide)⟩

/-- C2 (amended): for every non-harmful request, the emitted sections are
exactly the canonical-order emission over the active set, where the active
set is the set of the client's `needs` when `needs` is provided and
non-empty, and the full default set when `needs` is absent or empty. -/
theorem sections_respect_needs_amended (req : AssistRequest)
    (hsafe : is_harmful req.question = false) :
    (assist req).sections =
      specSectionsOf (amendedActive req.needs) (introOf req)
        (generate_content req.student_class req.subject req.question) := by
  have h1 : (assist req).sections =
      assembleSections req (generate_content req.student_class req.subject req.question) := by
    simp [assist, hsafe]
  rw [h1, assembleSections_eq_specSections]
  rfl

theorem sections_respect_needs_amended_witness :
    is_harmful reqNeedsSome.question = false ∧
      (assist reqNeedsSome).sections =
        specSectionsOf (amendedActive (some [SectionKey.steps, SectionKey.quiz]))
          (introOf reqNeedsSome) (generate_content 6 "Computer" "draw a flowchart") :=
  ⟨by decide, sections_respect_needs_amended reqNeedsSome (by decide)⟩

/-- C2 counterexample: on a request that provides `needs = []`, the active
set claimed by the specification is empty, so the claimed emission rule
yields no sections, yet the pipeline returns a non-empty sections list. -/
theorem sections_empty_needs_counterexample :
    specSectionsOf (claimActive reqEmptyNeeds.needs) (introOf reqEmptyNeeds)
        (generate_content 3 "Math" "what is a triangle") = [] ∧
      (assist reqEmptyNeeds).sections ≠ [] := by
  constructor
  · decide
  · decide

/-- C3: the canonical addition request yields a "Step-by-step" section whose
first line is the place-value line and an "Examples" section containing
"23 + 19 = 42"; in general the Math classifier tests its keyword lists in
the order addition, subtraction, fraction, algebra — the first list with a
substring hit wins — and falls back to a generic bundle when none match. -/
theorem math_keyword_dispatch_and_example :
    ((assist reqMath).sections.any (fun s =>
        s.title == "Step-by-step" &&
          s.content.head? == some "Line up the numbers by place value.") = true) ∧
    ((assist reqMath).sections.any (fun s =>
        s.title == "Examples" && s.content.contains "23 + 19 = 42") = true) ∧
    (∀ (l : Nat) (q : String),
      (mathHit ADD_KEYS q = true →
        explain_math l q = bundle10 addSteps addExamples addPractice addTips
          mathSummary mathFunFacts mathRelated mathVisuals mathRevision mathQuiz) ∧
      (mathHit ADD_KEYS q = false → mathHit SUB_KEYS q = true →
        explain_math l q = bundle10 subSteps subExamples subPractice subTips
          mathSummary mathFunFacts mathRelated mathVisuals mathRevision mathQuiz) ∧
      (mathHit ADD_KEYS q = false → mathHit SUB_KEYS q = false →
          mathHit FRAC_KEYS q = true →
        explain_math l q = bundle10 fracSteps fracExamples fracPractice fracTips
          mathSummary mathFunFacts mathRelated mathVisuals mathRevision mathQuiz) ∧
      (mathHit ADD_KEYS q = false → mathHit SUB_KEYS q = false →
          mathHit FRAC_KEYS q = false → mathHit ALG_KEYS q = true →
        explain_math l q = bundle10 algSteps algExamples algPractice algTips
          mathSummary mathFunFacts mathRelated mathVisuals mathRevision mathQuiz) ∧
      (mathHit ADD_KEYS q = false → mathHit SUB_KEYS q = false →
          mathHit FRAC_KEYS q = false → mathHit ALG_KEYS q = false →
        explain_math l q = bundle10 genericSteps genericExamples genericPractice genericTips
          mathSummary mathFunFacts mathRelated mathVisuals mathRevision mathQuiz)) := by
  refine ⟨by decide, by decide, fun l q => ⟨?_, ?_, ?_, ?_, ?_⟩⟩
  · intro h1
    simp [explain_math, h1]
  · intro h1 h2
    simp [explain_math, h1, h2]
  · intro h1 h2 h3
    simp [explain_math, h1, h2, h3]
  · intro h1 h2 h3 h4
    simp [explain_math, h1, h2, h3, h4]
  · intro h1 h2 h3 h4
    simp [explain_math, h1, h2, h3, h4]

theorem math_keyword_dispatch_and_example_witness :
    mathHit ADD_KEYS "add and minus" = true ∧
      explain_math 3 "add and minus" = bundle10 addSteps addExamples addPractice addTips
        mathSummary mathFunFacts mathRelated mathVisuals mathRevision mathQuiz ∧
      explain_math 4 "roman numerals" = bundle10 genericSteps genericExamples
        genericPractice genericTips mathSummary mathFunFacts mathRelated
        mathVisuals mathRevision mathQuiz :=
  ⟨by decide,
   (math_keyword_dispatch_and_example.2.2 3 "add and minus").1 (by decide),
   (math_keyword_dispatch_and_example.2.2 4 "roman numerals").2.2.2.2
     (by decide) (by decide) (by decide) (by decide)⟩

/-- C4: the tone profile is the four-tier step function over grades 1-10,
every tier sets bullets, and the tier boundaries 2/3 and 8/9 select
different voices. -/
theorem tone_four_tier :
    (∀ l : Nat, 1 ≤ l → l ≤ 2 → level_tone l = ⟨"very simple, friendly", 8, true⟩) ∧
    (∀ l : Nat, 3 ≤ l → l ≤ 5 → level_tone l = ⟨"simple and clear", 12, true⟩) ∧
    (∀ l : Nat, 6 ≤ l → l ≤ 8 → level_tone l = ⟨"clear with a bit more detail", 16, true⟩) ∧
    (∀ l : Nat, 9 ≤ l → l ≤ 10 →
      level_tone l = ⟨"concise, structured, and exam-oriented", 18, true⟩) ∧
    (level_tone 2).voice ≠ (level_tone 3).voice ∧
    (level_tone 8).voice ≠ (level_tone 9).voice := by
  refine ⟨fun l h1 h2 => ?_, fun l h1 h2 => ?_, fun l h1 h2 => ?_, fun l h1 h2 => ?_,
    by decide, by decide⟩
  · unfold level_tone
    rw [if_pos (by omega)]
  · unfold level_tone
    rw [if_neg (by omega), if_pos (by omega)]
  · unfold level_tone
    rw [if_neg (by omega), if_neg (by omega), if_pos (by omega)]
  · unfold level_tone
    rw [if_neg (by omega), if_neg (by omega), if_neg (by omega)]

theorem tone_four_tier_witness :
    level_tone 1 = ⟨"very simple, friendly", 8, true⟩ ∧
      level_tone 4 = ⟨"simple and clear", 12, true⟩ ∧
      level_tone 7 = ⟨"clear with a bit more detail", 16, true⟩ ∧
      level_tone 10 = ⟨"concise, structured, and exam-oriented", 18, true⟩ :=
  ⟨tone_four_tier.1 1 (by decide) (by decide),
   tone_four_tier.2.1 4 (by decide) (by decide),
   tone_four_tier.2.2.1 7 (by decide) (by decide),
   tone_four_tier.2.2.2.1 10 (by decide) (by decide)⟩

/-- C5: any subject that is none of the five recognized dispatch values is
silently served the Languages bundle instead of an error. -/
theorem unknown_subject_defaults_to_languages (l : Nat) (s q : String)
    (h1 : s ≠ "Math") (h2 : s ≠ "Science") (h3 : s ≠ "English")
    (h4 : s ≠ "Social Studies") (h5 : s ≠ "Computer") :
    generate_content l s q = explain_languages l q := by
  unfold generate_content
  rw [if_neg h1, if_neg h2, if_neg h3, if_neg h4, if_neg h5]

theorem unknown_subject_defaults_to_languages_witness :
    generate_content 4 "History" "tell me about rivers" =
      explain_languages 4 "tell me about rivers" :=
  unknown_subject_defaults_to_languages 4 "History" "tell me about rivers"
    (by decide) (by decide) (by decide) (by decide) (by decide)

/-- C6: with `needs = {examples}` the assembler emits exactly one section,
titled "Examples", whenever the bundle defines the examples key, and no
section at all when it does not; on the pipeline this always yields the
singleton since every generated bundle defines the key. -/
theorem needs_examples_singleton :
    (∀ (req : AssistRequest) (content : Bundle),
      req.needs = some [SectionKey.examples] →
      (∀ v, content SectionKey.examples = some v →
        assembleSections req content = [⟨"Examples", v⟩]) ∧
      (content SectionKey.examples = none → assembleSections req content = [])) ∧
    (∀ req : AssistRequest, is_harmful req.question = false →
      req.needs = some [SectionKey.examples] →
      ∃ v, (assist req).sections = [⟨"Examples", v⟩]) := by
  have main : ∀ (req : AssistRequest) (content : Bundle),
      req.needs = some [SectionKey.examples] →
      (∀ v, content SectionKey.examples = some v →
        assembleSections req content = [⟨"Examples", v⟩]) ∧
      (content SectionKey.examples = none → assembleSections req content = []) := by
    intro req content hneeds
    obtain ⟨sc, subj, q, lang, needs⟩ := req
    simp only at hneeds
    subst hneeds
    constructor
    · intro v hv
      simp [assembleSections, includeOf, sectionMapping, hv]
    · intro hv
      simp [assembleSections, includeOf, sectionMapping, hv]
  refine ⟨main, fun req hsafe hneeds => ?_⟩
  obtain ⟨v, hv⟩ := Option.isSome_iff_exists.mp
    (generate_content_total req.student_class req.subject req.question
      SectionKey.examples (by decide))
  refine ⟨v, ?_⟩
  have h1 : (assist req).sections =
      assembleSections req (generate_content req.student_class req.subject req.question) := by
    simp [assist, hsafe]
  rw [h1]
  exact (main req _ hneeds).1 v hv

theorem needs_examples_singleton_witness :
    reqExamplesOnly.needs = some [SectionKey.examples] ∧
      assembleSections reqExamplesOnly
          (generate_content 4 "Science" "why is the sky blue") =
        [⟨"Examples", ["Testing which paper towel absorbs more water."]⟩] ∧
      assembleSections reqExamplesOnly (fun k => none) = [] ∧
      (∃ v, (assist reqExamplesOnly).sections = [⟨"Examples", v⟩]) :=
  ⟨rfl,
   (needs_examples_singleton.1 reqExamplesOnly
       (generate_content 4 "Science" "why is the sky blue") rfl).1
     ["Testing which paper towel absorbs more water."] (by decide),
   (needs_examples_singleton.1 reqExamplesOnly (fun k => none) rfl).2 rfl,
   needs_examples_singleton.2 reqExamplesOnly (by decide) rfl⟩

/-- C7: for every grade, subject string and question, the generated bundle
defines every section key the assembler may request — every key except
`explanation` — so no lookup during assembly can miss. -/
theorem bundle_defines_all_keys (l : Nat) (s q : String) (k : SectionKey)
    (hk : k ≠ SectionKey.explanation) :
    (generate_content l s q k).isSome = true :=
  generate_content_total l s q k hk

theorem bundle_defines_all_keys_witness :
    (generate_content 3 "Science" "why do leaves fall" SectionKey.steps).isSome = true :=
  bundle_defines_all_keys 3 "Science" "why do leaves fall" SectionKey.steps (by decide)

/-- C8: providing `needs` as an empty list behaves exactly like omitting it
— the Python truthiness test treats `[]` as absent — so the response carries
the full default set of eleven sections, not zero. -/
theorem empty_needs_full_sections (sc : Nat) (subj q : String) (lang : Option String)
    (hsafe : is_harmful q = false) :
    assist ⟨sc, subj, q, lang, some []⟩ = assist ⟨sc, subj, q, lang, none⟩ ∧
      (assist ⟨sc, subj, q, lang, some []⟩).sections.length = 11 := by
  refine ⟨rfl, ?_⟩
  have h1 : (assist ⟨sc, subj, q, lang, some []⟩).sections =
      assembleSections ⟨sc, subj, q, lang, some []⟩ (generate_content sc subj q) := by
    simp [assist, hsafe]
  rw [h1]
  have h2 : assembleSections ⟨sc, subj, q, lang, some []⟩ (generate_content sc subj q) =
      ⟨"Explanation", introOf ⟨sc, subj, q, lang, some []⟩⟩ ::
        sectionMapping.filterMap (fun p =>
          (generate_content sc subj q p.1).map (fun v => (⟨p.2, v⟩ : Sect))) := by
    simp [assembleSections, includeOf]
  rw [h2, List.length_cons, length_filterMap_of_isSome]
  · rfl
  · intro p hp
    have hkey : ∀ p ∈ sectionMapping, p.1 ≠ SectionKey.explanation := by decide
    obtain ⟨v, hv⟩ := Option.isSome_iff_exists.mp
      (generate_content_total sc subj q p.1 (hkey p hp))
    simp [hv]

theorem empty_needs_full_sections_witness :
    is_harmful "please explain nouns" = false ∧
      (assist ⟨2, "English", "please explain nouns", none, some []⟩ =
          assist ⟨2, "English", "please explain nouns", none, none⟩ ∧
        (assist ⟨2, "English", "please explain nouns", none, some []⟩).sections.length = 11) :=
  ⟨by decide, empty_needs_full_sections 2 "English" "please explain nouns" none (by decide)⟩

/-- C9: the content engine and the assembler are pure: the Math classifier
applied twice to the same grade and question gives identical bundles, and
the whole pipeline applied twice to the same request gives structurally
equal responses. -/
theorem engine_and_assembler_deterministic :
    (∀ (l : Nat) (q : String), explain_math l q = explain_math l q) ∧
    (∀ req : AssistRequest, assist req = assist req) :=
  ⟨fun _ _ => rfl, fun _ => rfl⟩

/-- C10: on every request with a grade in 1-10 and a valid subject, the
response — safety-filtered or not — echoes the request's grade as `level`
and its subject as `subject`, exactly. -/
theorem level_subject_echo (req : AssistRequest)
    (h1 : 1 ≤ req.student_class) (h2 : req.student_class ≤ 10)
    (h3 : validSubject req.subject = true) :
    (assist req).level = req.student_class ∧ (assist req).subject = req.subject := by
  unfold assist
  split <;> exact ⟨rfl, rfl⟩

theorem level_subject_echo_witness :
    (assist reqMath).level = 3 ∧ (assist reqMath).subject = "Math" :=
  level_subject_echo reqMath (by decide) (by decide) (by decide)
